import Mathlib

/-!
Verification development for the EMC2 excerpt consisting of
`emc2/core/model.py` (the `Model` data-container hierarchy) and
`emc2/plotting/subcol_display.py` (the `SubcolumnDisplay` plotting class).

The Python code is shallowly embedded:
* numpy arrays are modelled as row-major flat lists of rationals together
  with an explicit shape (list of axis sizes), exactly numpy's layout;
* xarray `DataArray` / `Dataset` objects carry dimension names, shapes,
  flat data and string attributes;
* Python exceptions are modelled with `Except String`, the string holding
  the exception class and message;
* the mutable `Display`/axes state of the plotting class is threaded
  explicitly: each plotting method maps a display state to a new display
  state together with the method's outcome.
-/

/-- Product of a list of axis sizes (the number of elements of an array of
that shape, row-major). -/
def prodl (l : List Nat) : Nat := l.foldl (· * ·) 1

/-- Row-major stride of axis `a` in an array of shape `shape`:
the product of the sizes of all later axes. -/
def strideOf (shape : List Nat) (a : Nat) : Nat := prodl (shape.drop (a + 1))

/-- Select index `i` along axis `a` of a row-major flat array of shape
`shape` (numpy integer indexing on one axis); the selected axis is removed
from the shape by the caller. -/
def selAxisFlat (shape : List Nat) (a i : Nat) (flat : List ℚ) : List ℚ :=
  let stride := strideOf shape a
  let dimsz := shape.getD a 1
  ((flat.enum.filter (fun pq => (pq.1 / stride) % dimsz == i)).map Prod.snd)

/-- Mixed-radix ranking: the row-major flat position of the multi-index
`idxs` in an array of shape `shape`. -/
def flatIndexOf (shape : List Nat) (idxs : List Nat) : Nat :=
  (shape.zip idxs).foldl (fun acc si => acc * si.1 + si.2) 0

/-- Mixed-radix unranking: the multi-index of flat position `p` in an array
of shape `shape` (row-major). -/
def unrank (shape : List Nat) (p : Nat) : List Nat :=
  (List.range shape.length).map (fun j => (p / strideOf shape j) % shape.getD j 1)

/-- numpy `.T`: reverse the order of the axes of an array.  On 0-d and 1-d
arrays this is the identity, as in numpy. -/
def npT (shape : List Nat) (flat : List ℚ) : List Nat × List ℚ :=
  (shape.reverse,
   (List.range (prodl shape)).map (fun p =>
     flat.getD (flatIndexOf shape ((unrank shape.reverse p).reverse)) 0))

/-- numpy `meshgrid(x, y)` for 1-d inputs: returns the pair `(X, Y)` of
2-d arrays of shape `(len y, len x)`, `X` repeating `x` along the rows and
`Y` holding `y` constant along each row. -/
def np_meshgrid (x y : List ℚ) : (List Nat × List ℚ) × (List Nat × List ℚ) :=
  (([y.length, x.length], (y.map (fun _ => x)).flatten),
   ([y.length, x.length], (y.map (fun yi => x.map (fun _ => yi))).flatten))

/-- numpy `linspace(start, stop, num)`: `num` evenly spaced samples from
`start` to `stop` inclusive, sample `i` being
`start + (stop - start) * i / (num - 1)` (for `num = 1` the sole sample
is `start`, matching numpy, since the `i = 0` numerator vanishes). -/
def np_linspace (start stop : ℚ) (num : Nat) : List ℚ :=
  (List.range num).map
    (fun i : Nat => start + (stop - start) * (i : ℚ) / ((num - 1 : Nat) : ℚ))

/-- Insert into a sorted list of rationals, keeping it sorted. -/
def insertSortedQ (x : ℚ) : List ℚ → List ℚ
  | [] => [x]
  | y :: ys => if x ≤ y then x :: y :: ys else y :: insertSortedQ x ys

/-- Insertion sort of a list of rationals (only used to specify numpy
percentiles, whose value depends on the sorted data). -/
def sortQ (l : List ℚ) : List ℚ := l.foldr insertSortedQ []

/-- Minimum of a list of rationals (numpy `min` of a nonempty array);
`d` is returned for the empty list. -/
def listMinD (l : List ℚ) (d : ℚ) : ℚ :=
  match l with
  | [] => d
  | x :: xs => xs.foldl min x

/-- Maximum of a list of rationals (numpy `max` of a nonempty array);
`d` is returned for the empty list. -/
def listMaxD (l : List ℚ) (d : ℚ) : ℚ :=
  match l with
  | [] => d
  | x :: xs => xs.foldl max x

/-- The value of numpy `nanpercentile(a, q)` over the flattened data `l`
for an in-range `q`, with numpy's default linear interpolation: for
sorted data `s` of length `n` the result is `s[pos]` linearly
interpolated at `pos = q * (n - 1) / 100`.  Rationals have no NaN, so
`nanpercentile` and `percentile` coincide; `none` models numpy's NaN
result (under a RuntimeWarning) on empty data. -/
def np_nanpercentileVal (l : List ℚ) (q : ℚ) : Option ℚ :=
  let s := sortQ l
  match s with
  | [] => none
  | _ :: _ =>
    let n := s.length
    let pos : ℚ := q * ((n : ℚ) - 1) / 100
    let i : Nat := pos.floor.toNat
    let frac : ℚ := pos - (i : ℚ)
    let a := s.getD i 0
    let b := s.getD (min (i + 1) (n - 1)) 0
    some (a + frac * (b - a))

/-- A call to numpy `nanpercentile(a, q)`: numpy raises `ValueError` for
`q` outside `[0, 100]` and otherwise returns the interpolated value
(NaN, modelled `none`, on empty data). -/
def np_nanpercentile (l : List ℚ) (q : ℚ) : Except String (Option ℚ) :=
  if q < 0 ∨ 100 < q then
    Except.error "ValueError: Percentiles must be in the range [0, 100]"
  else Except.ok (np_nanpercentileVal l q)

/-- An xarray `DataArray`: named dimensions, shape, row-major flat data
and string-valued attributes. -/
structure DataArray where
  dims : List String := []
  shape : List Nat := []
  data : List ℚ := []
  attrs : List (String × String) := []
deriving DecidableEq, Repr, Inhabited

/-- An xarray `Dataset`: an ordered association of variable names to data
arrays (coordinate variables are the entries whose name equals one of
their dimensions), plus dataset attributes. -/
structure Dataset where
  vars : List (String × DataArray) := []
  attrs : List (String × String) := []
deriving DecidableEq, Repr, Inhabited

/-- The `dims` mapping of a dataset, as xarray exposes it: each dimension
name with its size, collected over the variables in order (first
occurrence wins; xarray keeps the sizes consistent across variables). -/
def datasetDims (ds : Dataset) : List (String × Nat) :=
  ds.vars.foldl
    (fun acc nv =>
      (nv.2.dims.zip nv.2.shape).foldl
        (fun acc2 p => if acc2.any (fun q => q.1 == p.1) then acc2 else acc2 ++ [p])
        acc)
    []

/-- Size of dimension `name` in `ds.dims`, `none` when the dimension is
absent (Python: `KeyError`). -/
def dimSize (ds : Dataset) (name : String) : Option Nat :=
  (datasetDims ds).lookup name

/-- Dataset item access `ds[name]` for a string key; a missing variable is
a Python `KeyError`. -/
def dsGetItem (ds : Dataset) (name : String) : Except String DataArray :=
  match ds.vars.lookup name with
  | some v => Except.ok v
  | none => Except.error ("KeyError: " ++ name)

/-- Drop the axis named `name` from a data array when it is present with
size 1 (one step of xarray `squeeze` with an explicit dimension; the
`ModelE` code only squeezes dimensions it has just checked to have
size 1). -/
def dropAxisIfOne (v : DataArray) (name : String) : DataArray :=
  match v.dims.findIdx? (fun d => d == name) with
  | none => v
  | some a =>
      if v.shape.getD a 0 == 1 then
        { v with
          dims := v.dims.eraseIdx a
          shape := v.shape.eraseIdx a
          data := selAxisFlat v.shape a 0 v.data }
      else v

/-- xarray `Dataset.squeeze(dim=names)`: remove each of the named size-1
dimensions from every variable carrying it. -/
def datasetSqueeze (ds : Dataset) (names : List String) : Dataset :=
  { ds with vars := ds.vars.map (fun nv => (nv.1, names.foldl dropAxisIfOne nv.2)) }

/-- A Python `Model` object (`emc2.core.model.Model` and its subclasses).
Fields are the attributes assigned by the constructors in `model.py`;
`model_name` is `none` because no class in `model.py` ever assigns a
`model_name` attribute (reading it is then a Python `AttributeError`).
The attribute written `lidar_ratio` in the source is called
`lidar_ratio_q` here.  Dictionaries are ordered association lists, which
matches Python dict insertion order. -/
structure PyModel where
  Rho_hyd : List (String × ℚ) := []
  lidar_ratio_q : List (String × ℚ) := []
  LDR_per_hyd : List (String × ℚ) := []
  vel_param_a : List (String × ℚ) := []
  vel_param_b : List (String × ℚ) := []
  q_names_convective : List (String × String) := []
  q_names_stratiform : List (String × String) := []
  q_names : List (String × String) := []
  N_field : List (String × String) := []
  T_field : String := ""
  q_field : String := ""
  p_field : String := ""
  z_field : String := ""
  qp_field : List (String × String) := []
  conv_frac_names : List (String × String) := []
  strat_frac_names : List (String × String) := []
  ds : Option Dataset := none
  time_dim : String := "time"
  height_dim : String := "height"
  model_name : Option String := none
deriving DecidableEq, Repr, Inhabited

/-- Keys of a Python dict modelled as an association list
(`list(d.keys())`, in insertion order). -/
def dictKeys {α : Type} (l : List (String × α)) : List String := l.map Prod.fst

/-- Property `Model.hydrometeor_classes`: `list(self.N_field.keys())`. -/
def Model_hydrometeor_classes (m : PyModel) : List String :=
  dictKeys m.N_field

/-- Property `Model.num_hydrometeor_classes`: `len(list(self.N_field.keys()))`. -/
def Model_num_hydrometeor_classes (m : PyModel) : Nat :=
  (dictKeys m.N_field).length

/-- Property `Model.num_subcolumns`: returns `self.ds.dims['subcolumn']` when the
`subcolumn` dimension is among `self.ds.dims.keys()` and `0` otherwise;
when `self.ds` is `None` the attribute access `self.ds.dims` raises. -/
def Model_num_subcolumns (m : PyModel) : Except String Nat :=
  match m.ds with
  | none => Except.error "AttributeError: NoneType object has no attribute dims"
  | some dsv =>
      Except.ok
        (if (datasetDims dsv).any (fun p => p.1 == "subcolumn") then
          (dimSize dsv "subcolumn").getD 0
        else 0)

/-- Stand-in for `numpy.exp`, an external library routine computing a
transcendental function with no exact rational value.  None of the
verified claims depends on the numeric contents of the test-model
datasets (only on variable names, dimensions and shapes), so a simple
total rational function stands in for the values. -/
def np_exp (x : ℚ) : ℚ := 1 + x + x ^ 2 / 2 + x ^ 3 / 6

/-- Stand-in for numpy float power `x ** y` with non-integer exponent
(used as `(temp / 288.08) ** 5.256`), a transcendental external library
routine; as with `np_exp`, only totality matters for the claims. -/
def np_fpow (x y : ℚ) : ℚ := 1 + y * (x - 1)

/-- Reading a Python function-local variable before any assignment to it
has executed raises `UnboundLocalError`.  In `TestConvection.__init__`
the variable `temp` is assigned only on line 198, so the read
`temp - 273.15` on line 182 hits this. -/
def pyUnboundLocal (x : String) : Except String (List ℚ) :=
  Except.error ("UnboundLocalError: local variable " ++ x ++ " referenced before assignment")

/-- A 1-d `xr.DataArray(xs, dims=(d))`. -/
def da1 (d : String) (xs : List ℚ) : DataArray :=
  { dims := [d], shape := [xs.length], data := xs }

/-- Array construction `xr.DataArray(xs[:, np.newaxis], dims=(d1, d2))`: a column array of
shape `(len xs, 1)`; in row-major order the flat data is unchanged. -/
def da2col (d1 d2 : String) (xs : List ℚ) : DataArray :=
  { dims := [d1, d2], shape := [xs.length, 1], data := xs }

/-- Selection `np.where(mask, 1, 0.)`. -/
def whereOne (mask : List Bool) : List ℚ :=
  mask.map (fun b => if b then (1 : ℚ) else 0)

deriving instance DecidableEq for Except

/-- Outcome of `ModelE.__init__`: the constructed model or the raised
exception, together with whether `self.ds.close()` executed during the
constructor (the source closes the dataset on line 125, immediately
before raising the RuntimeError on line 126). -/
structure ModelEInitResult where
  result : Except String PyModel
  dsClosed : Bool
deriving DecidableEq, Repr

/-- Constructor `ModelE.__init__(file_path)`.  Here `ds` is the dataset that
`xr.open_dataset(file_path, decode_times=False)` returns for `file_path`
(file input is abstracted as the already-opened dataset).  The
single-column check mirrors the source exactly: `self.ds.dims['lat'] != 1
or self.ds.dims['lon'] != 1` with Python short-circuit evaluation,
closing the dataset before raising; on success the `lat` and `lon`
dimensions are squeezed away. -/
def ModelE_init (file_path : String) (ds : Dataset) : ModelEInitResult :=
  let scmError :=
    "RuntimeError: " ++ file_path ++ " is not an SCM run. EMC^2 will only work with SCM runs."
  let base : PyModel := {
    Rho_hyd := [("cl", 1000), ("ci", 5000), ("pl", 1000), ("pi", 250)]
    lidar_ratio_q := [("cl", 18), ("ci", 24), ("pl", 5.5), ("pi", 24.0)]
    LDR_per_hyd := [("cl", 0.03), ("ci", 0.35), ("pl", 0.1), ("pi", 0.40)]
    vel_param_a := [("cl", 3e-7), ("ci", 700), ("pl", 841.997), ("pi", 11.72)]
    vel_param_b := [("cl", 2), ("ci", 1), ("pl", 0.8), ("pi", 0.41)]
    q_names := [("cl", "qcl"), ("ci", "qci"), ("pl", "qpl"), ("pi", "qpi")]
    q_field := "q"
    N_field := [("cl", "ncl"), ("ci", "nci"), ("pl", "npl"), ("pi", "npi")]
    p_field := "p_3d"
    z_field := "z"
    T_field := "t"
    height_dim := "plm"
    time_dim := "time"
    conv_frac_names := [("cl", "cldmccl"), ("ci", "cldmcci"), ("pl", "cldmcpl"), ("pi", "cldmcpi")]
    strat_frac_names := [("cl", "cldsscl"), ("ci", "cldssci"), ("pl", "cldsspl"), ("pi", "cldsspi")]
    ds := some ds }
  match dimSize ds "lat" with
  | none => { result := Except.error "KeyError: lat", dsClosed := false }
  | some la =>
    if la ≠ 1 then { result := Except.error scmError, dsClosed := true }
    else
      match dimSize ds "lon" with
      | none => { result := Except.error "KeyError: lon", dsClosed := false }
      | some lo =>
        if lo ≠ 1 then { result := Except.error scmError, dsClosed := true }
        else
          { result := Except.ok { base with ds := some (datasetSqueeze ds ["lat", "lon"]) }
            dsClosed := false }

/-- Constructor `TestModel.__init__`.  The float `num` argument in
`np.linspace(0, 1, 1000.)` is converted to the integer 1000, as the numpy
versions contemporary with this code did (newer numpy rejects a float
`num`).  `TestModel.__init__` does not call `super().__init__` and never
assigns `height_dim`, `time_dim` or `model_name`; the record defaults
("height", "time", `none`) represent that state. -/
def TestModel_init : Except String PyModel := do
  let q := np_linspace 0 1 1000
  let N := q.map (fun _ => (100 : ℚ))
  let heights := np_linspace 0 11000 1000
  let temp := heights.map (fun h => 15.04 - 0.00649 * h + 273.15)
  let temp_c := temp.map (fun t => t - 273.15)
  let p := temp.map (fun t => 1012.9 * np_fpow (t / 288.08) 5.256)
  let es := temp_c.map (fun tc => 0.6112 * np_exp (17.67 * tc / (tc + 243.5)))
  let qv := es.zipWith (fun e pp => 0.622 * e * 1e3 / (pp * 1e2 - e * 1e3)) p
  let times := da1 "time" [0]
  let heightsA := da1 "height" heights
  let pA := da2col "height" "time" p
  let qvA := da2col "height" "time" qv
  let tempA := da2col "height" "time" temp
  let qA := da2col "height" "time" q
  let nA := da2col "height" "time" N
  let my_ds : Dataset := { vars :=
    [("p_3d", pA), ("q", qvA), ("t", tempA), ("height", heightsA),
     ("qcl", qA), ("ncl", nA), ("qpl", qA), ("qci", qA), ("qpi", qA),
     ("time", times)] }
  pure {
    Rho_hyd := [("cl", 1000), ("ci", 5000), ("pl", 1000), ("pi", 250)]
    lidar_ratio_q := [("cl", 18), ("ci", 24), ("pl", 5.5), ("pi", 24.0)]
    LDR_per_hyd := [("cl", 0.03), ("ci", 0.35), ("pl", 0.1), ("pi", 0.40)]
    vel_param_a := [("cl", 3e-7), ("ci", 700), ("pl", 841.997), ("pi", 11.72)]
    vel_param_b := [("cl", 2), ("ci", 1), ("pl", 0.8), ("pi", 0.41)]
    q_names_convective := [("cl", "qcl"), ("ci", "qci"), ("pl", "qpl"), ("pi", "qpi")]
    q_names_stratiform := [("cl", "qcl"), ("ci", "qci"), ("pl", "qpl"), ("pi", "qpi")]
    q_field := "q"
    N_field := [("cl", "ncl"), ("ci", "nci"), ("pl", "npl"), ("pi", "npi")]
    p_field := "p_3d"
    z_field := "height"
    T_field := "t"
    conv_frac_names := [("cl", "cldmccl"), ("ci", "cldmcci"), ("pl", "cldmcpl"), ("pi", "cldmcpi")]
    strat_frac_names := [("cl", "cldsscl"), ("ci", "cldssci"), ("pl", "cldsspl"), ("pi", "cldsspi")]
    ds := some my_ds }

/-- Constructor `TestConvection.__init__`.  The source (model.py lines 178-185) jumps
from the `heights` assignment straight to `temp_c = temp - 273.15`: unlike
its sibling classes it never computes `temp` first, and since `temp` is
assigned further down (line 198) it is a function local, so the read on
line 182 raises `UnboundLocalError` on every construction. -/
def TestConvection_init : Except String PyModel := do
  let q := np_linspace 0 1 1000
  let N := q.map (fun _ => (100 : ℚ))
  let heights := np_linspace 0 11000 1000
  let temp ← pyUnboundLocal "temp"
  let temp_c := temp.map (fun t => t - 273.15)
  let p := temp.map (fun t => 1012.9 * np_fpow (t / 288.08) 5.256)
  let es := temp_c.map (fun tc => 0.6112 * np_exp (17.67 * tc / (tc + 243.5)))
  let qv := es.zipWith (fun e pp => 0.622 * e * 1e3 / (pp * 1e2 - e * 1e3)) p
  let convective_liquid := heights.zipWith (fun h t => decide (h > 1000) && decide (t ≥ 273.15)) temp
  let convective_ice := heights.zipWith (fun h t => decide (h > 1000) && decide (t < 273.15)) temp
  let cldmccl := whereOne convective_liquid
  let cldmcci := whereOne convective_ice
  let cldsscl := heights.map (fun _ => (0 : ℚ))
  let cldssci := heights.map (fun _ => (0 : ℚ))
  let times := da1 "time" [0]
  let heightsA := da1 "height" heights
  let pA := da2col "height" "time" p
  let qvA := da2col "height" "time" qv
  let tempA := da2col "height" "time" temp
  let qA := da2col "height" "time" q
  let nA := da2col "height" "time" N
  let cldmcclA := da2col "height" "time" cldmccl
  let cldmcciA := da2col "height" "time" cldmcci
  let cldssclA := da2col "height" "time" cldsscl
  let cldssciA := da2col "height" "time" cldssci
  let my_ds : Dataset := { vars :=
    [("p_3d", pA), ("q", qvA), ("t", tempA), ("height", heightsA),
     ("qcl", qA), ("ncl", nA), ("qpl", qA), ("qci", qA), ("qpi", qA),
     ("cldmccl", cldmcclA), ("cldmcci", cldmcciA),
     ("cldsscl", cldssclA), ("cldssci", cldssciA),
     ("time", times)] }
  pure {
    Rho_hyd := [("cl", 1000), ("ci", 5000), ("pl", 1000), ("pi", 250)]
    lidar_ratio_q := [("cl", 18), ("ci", 24), ("pl", 5.5), ("pi", 24.0)]
    LDR_per_hyd := [("cl", 0.03), ("ci", 0.35), ("pl", 0.1), ("pi", 0.40)]
    vel_param_a := [("cl", 3e-7), ("ci", 700), ("pl", 841.997), ("pi", 11.72)]
    vel_param_b := [("cl", 2), ("ci", 1), ("pl", 0.8), ("pi", 0.41)]
    q_names_convective := [("cl", "qcl"), ("ci", "qci"), ("pl", "qpl"), ("pi", "qpi")]
    q_names_stratiform := [("cl", "qcl"), ("ci", "qci"), ("pl", "qpl"), ("pi", "qpi")]
    q_field := "q"
    N_field := [("cl", "ncl"), ("ci", "nci"), ("pl", "npl"), ("pi", "npi")]
    p_field := "p_3d"
    z_field := "height"
    T_field := "t"
    conv_frac_names := [("cl", "cldmccl"), ("ci", "cldmcci"), ("pl", "cldmcpl"), ("pi", "cldmcpi")]
    strat_frac_names := [("cl", "cldsscl"), ("ci", "cldssci"), ("pl", "cldsspl"), ("pi", "cldsspi")]
    ds := some my_ds
    height_dim := "height"
    time_dim := "time" }

/-- Constructor `TestAllStratiform.__init__` (model.py lines 234-283): like
`TestModel` but with 100 percent stratiform cloud fractions above 1 km
and zero convective fractions; sets `height_dim` and `time_dim`
explicitly. -/
def TestAllStratiform_init : Except String PyModel := do
  let q := np_linspace 0 1 1000
  let N := q.map (fun _ => (100 : ℚ))
  let heights := np_linspace 0 11000 1000
  let temp := heights.map (fun h => 15.04 - 0.00649 * h + 273.15)
  let temp_c := temp.map (fun t => t - 273.15)
  let p := temp.map (fun t => 1012.9 * np_fpow (t / 288.08) 5.256)
  let es := temp_c.map (fun tc => 0.6112 * np_exp (17.67 * tc / (tc + 243.5)))
  let qv := es.zipWith (fun e pp => 0.622 * e * 1e3 / (pp * 1e2 - e * 1e3)) p
  let stratiform_liquid := heights.zipWith (fun h t => decide (h > 1000) && decide (t ≥ 273.15)) temp
  let stratiform_ice := heights.zipWith (fun h t => decide (h > 1000) && decide (t < 273.15)) temp
  let cldsscl := whereOne stratiform_liquid
  let cldssci := whereOne stratiform_ice
  let cldmccl := heights.map (fun _ => (0 : ℚ))
  let cldmcci := heights.map (fun _ => (0 : ℚ))
  let times := da1 "time" [0]
  let heightsA := da1 "height" heights
  let pA := da2col "height" "time" p
  let qvA := da2col "height" "time" qv
  let tempA := da2col "height" "time" temp
  let qA := da2col "height" "time" q
  let nA := da2col "height" "time" N
  let cldmcclA := da2col "height" "time" cldmccl
  let cldmcciA := da2col "height" "time" cldmcci
  let cldssclA := da2col "height" "time" cldsscl
  let cldssciA := da2col "height" "time" cldssci
  let my_ds : Dataset := { vars :=
    [("p_3d", pA), ("q", qvA), ("t", tempA), ("height", heightsA),
     ("qcl", qA), ("ncl", nA), ("qpl", qA), ("qci", qA), ("qpi", qA),
     ("cldmccl", cldmcclA), ("cldmcci", cldmcciA),
     ("cldsscl", cldssclA), ("cldssci", cldssciA),
     ("time", times)] }
  pure {
    Rho_hyd := [("cl", 1000), ("ci", 5000), ("pl", 1000), ("pi", 250)]
    lidar_ratio_q := [("cl", 18), ("ci", 24), ("pl", 5.5), ("pi", 24.0)]
    LDR_per_hyd := [("cl", 0.03), ("ci", 0.35), ("pl", 0.1), ("pi", 0.40)]
    vel_param_a := [("cl", 3e-7), ("ci", 700), ("pl", 841.997), ("pi", 11.72)]
    vel_param_b := [("cl", 2), ("ci", 1), ("pl", 0.8), ("pi", 0.41)]
    q_names_convective := [("cl", "qcl"), ("ci", "qci"), ("pl", "qpl"), ("pi", "qpi")]
    q_names_stratiform := [("cl", "qcl"), ("ci", "qci"), ("pl", "qpl"), ("pi", "qpi")]
    q_field := "q"
    N_field := [("cl", "ncl"), ("ci", "nci"), ("pl", "npl"), ("pi", "npi")]
    p_field := "p_3d"
    z_field := "height"
    T_field := "t"
    conv_frac_names := [("cl", "cldmccl"), ("ci", "cldmcci"), ("pl", "cldmcpl"), ("pi", "cldmcpi")]
    strat_frac_names := [("cl", "cldsscl"), ("ci", "cldssci"), ("pl", "cldsspl"), ("pi", "cldsspi")]
    ds := some my_ds
    height_dim := "height"
    time_dim := "time" }

/-- Constructor `TestHalfAndHalf.__init__` (model.py lines 291-340): like
`TestAllStratiform` but all four cloud-fraction fields are
`0.5 * np.where(...)` of the stratiform masks. -/
def TestHalfAndHalf_init : Except String PyModel := do
  let q := np_linspace 0 1 1000
  let N := q.map (fun _ => (100 : ℚ))
  let heights := np_linspace 0 11000 1000
  let temp := heights.map (fun h => 15.04 - 0.00649 * h + 273.15)
  let temp_c := temp.map (fun t => t - 273.15)
  let p := temp.map (fun t => 1012.9 * np_fpow (t / 288.08) 5.256)
  let es := temp_c.map (fun tc => 0.6112 * np_exp (17.67 * tc / (tc + 243.5)))
  let qv := es.zipWith (fun e pp => 0.622 * e * 1e3 / (pp * 1e2 - e * 1e3)) p
  let stratiform_liquid := heights.zipWith (fun h t => decide (h > 1000) && decide (t ≥ 273.15)) temp
  let stratiform_ice := heights.zipWith (fun h t => decide (h > 1000) && decide (t < 273.15)) temp
  let cldsscl := (whereOne stratiform_liquid).map (fun x => 0.5 * x)
  let cldssci := (whereOne stratiform_ice).map (fun x => 0.5 * x)
  let cldmccl := (whereOne stratiform_liquid).map (fun x => 0.5 * x)
  let cldmcci := (whereOne stratiform_ice).map (fun x => 0.5 * x)
  let times := da1 "time" [0]
  let heightsA := da1 "height" heights
  let pA := da2col "height" "time" p
  let qvA := da2col "height" "time" qv
  let tempA := da2col "height" "time" temp
  let qA := da2col "height" "time" q
  let nA := da2col "height" "time" N
  let cldmcclA := da2col "height" "time" cldmccl
  let cldmcciA := da2col "height" "time" cldmcci
  let cldssclA := da2col "height" "time" cldsscl
  let cldssciA := da2col "height" "time" cldssci
  let my_ds : Dataset := { vars :=
    [("p_3d", pA), ("q", qvA), ("t", tempA), ("height", heightsA),
     ("qcl", qA), ("ncl", nA), ("qpl", qA), ("qci", qA), ("qpi", qA),
     ("cldmccl", cldmcclA), ("cldmcci", cldmcciA),
     ("cldsscl", cldssclA), ("cldssci", cldssciA),
     ("time", times)] }
  pure {
    Rho_hyd := [("cl", 1000), ("ci", 5000), ("pl", 1000), ("pi", 250)]
    lidar_ratio_q := [("cl", 18), ("ci", 24), ("pl", 5.5), ("pi", 24.0)]
    LDR_per_hyd := [("cl", 0.03), ("ci", 0.35), ("pl", 0.1), ("pi", 0.40)]
    vel_param_a := [("cl", 3e-7), ("ci", 700), ("pl", 841.997), ("pi", 11.72)]
    vel_param_b := [("cl", 2), ("ci", 1), ("pl", 0.8), ("pi", 0.41)]
    q_names_convective := [("cl", "qcl"), ("ci", "qci"), ("pl", "qpl"), ("pi", "qpi")]
    q_names_stratiform := [("cl", "qcl"), ("ci", "qci"), ("pl", "qpl"), ("pi", "qpi")]
    q_field := "q"
    N_field := [("cl", "ncl"), ("ci", "nci"), ("pl", "npl"), ("pi", "npi")]
    p_field := "p_3d"
    z_field := "height"
    T_field := "t"
    conv_frac_names := [("cl", "cldmccl"), ("ci", "cldmcci"), ("pl", "cldmcpl"), ("pi", "cldmcpi")]
    strat_frac_names := [("cl", "cldsscl"), ("ci", "cldssci"), ("pl", "cldsspl"), ("pi", "cldsspi")]
    ds := some my_ds
    height_dim := "height"
    time_dim := "time" }

/-- Integer selection `isel` of index `j` along dimension `dim` of a data
array (the dimension is dropped); arrays not carrying `dim` are returned
unchanged, as xarray does for `Dataset.sel`. -/
def varISel (v : DataArray) (dim : String) (j : Nat) : DataArray :=
  match v.dims.findIdx? (fun d => d == dim) with
  | none => v
  | some a =>
      { v with
        dims := v.dims.eraseIdx a
        shape := v.shape.eraseIdx a
        data := selAxisFlat v.shape a j v.data }

/-- xarray `Dataset.sel(dim=label)` with a scalar label: find the position
of `label` in the coordinate variable named `dim`, then take that index
along `dim` in every variable carrying the dimension.  Without a
coordinate variable for `dim`, or with a label absent from it, xarray
raises `KeyError`. -/
def datasetSelScalar (ds : Dataset) (dim : String) (label : ℚ) : Except String Dataset :=
  match ds.vars.lookup dim with
  | none => Except.error ("KeyError: no index found for dimension " ++ dim)
  | some coord =>
      match coord.data.findIdx? (fun x => x == label) with
      | none => Except.error ("KeyError: label not found in index " ++ dim)
      | some j =>
          Except.ok { ds with vars := ds.vars.map (fun nv => (nv.1, varISel nv.2 dim j)) }

/-- Keep, along axis `a` of a row-major flat array of shape `shape`, only
the positions whose axis-`a` coordinate is marked in `keep` (numpy boolean
indexing on one axis, the axis size becoming the number of kept marks). -/
def maskAxisFlat (shape : List Nat) (a : Nat) (keep : List Bool) (flat : List ℚ) : List ℚ :=
  let stride := strideOf shape a
  let dimsz := shape.getD a 1
  ((flat.enum.filter (fun pq => keep.getD ((pq.1 / stride) % dimsz) false)).map Prod.snd)

/-- Slicing `da.sel(time=slice(t0, t1))` for a data array `v` living in dataset
`ds`: label-based slicing along dimension `dim`, keeping the positions
whose coordinate value lies in the closed interval `[t0, t1]` (xarray
slices include both endpoints).  The coordinate variable is taken from
the containing dataset; selecting along a dimension the array does not
carry, or one without a coordinate, raises. -/
def daSelTimeSliceInDs (ds : Dataset) (v : DataArray) (dim : String) (t0 t1 : ℚ) :
    Except String DataArray :=
  match v.dims.findIdx? (fun d => d == dim) with
  | none => Except.error ("KeyError: " ++ dim)
  | some a =>
      match ds.vars.lookup dim with
      | none => Except.error ("KeyError: no index found for dimension " ++ dim)
      | some coord =>
          let keep := coord.data.map (fun x => decide (t0 ≤ x) && decide (x ≤ t1))
          Except.ok
            { v with
              shape := v.shape.set a (keep.count true)
              data := maskAxisFlat v.shape a keep v.data }

/-- numpy `arr[:, :, mask]` on a 3-d array: boolean indexing on the last
axis (the emc2 subcolumn variables are `(subcolumn, time, height)`); the
row-major order of the kept elements is all `np.nanpercentile`, a
flattening reduction, consumes.  Fewer than three axes is an
`IndexError`, as is a mask whose length differs from the axis size. -/
def maskLastAxis3 (shape : List Nat) (flat : List ℚ) (mask : List Bool) :
    Except String (List ℚ) :=
  match shape with
  | [_, _, h] =>
      if mask.length == h then
        Except.ok ((flat.enum.filter (fun pq => mask.getD (pq.1 % h) false)).map Prod.snd)
      else Except.error "IndexError: boolean index did not match indexed array"
  | _ => Except.error "IndexError: too many indices for array"

/-- numpy `arr[:, mask]`: boolean indexing on axis 1 of an array with at
least two axes. -/
def maskAxis1 (shape : List Nat) (flat : List ℚ) (mask : List Bool) :
    Except String (List ℚ) :=
  match shape with
  | _ :: h :: rest =>
      if mask.length == h then
        Except.ok
          ((flat.enum.filter
              (fun pq => mask.getD ((pq.1 / prodl rest) % h) false)).map Prod.snd)
      else Except.error "IndexError: boolean index did not match indexed array"
  | _ => Except.error "IndexError: too many indices for array"

/-- Attribute access `.values` on a Python local that is either still a field-name string
or already a DataArray: a `str` has no `values` attribute.  In
`plot_vertical_frequency_dist` the local `y_variable` starts as a string
(lines 152-155) and is rebound to a sliced array only when a time window
is given with height coordinates (line 166), so line 176 reads `.values`
off a plain string whenever `pressure_coords` is false and `time` is
`None`. -/
def strOrArrValues : String ⊕ DataArray → Except String DataArray
  | Sum.inl _ => Except.error "AttributeError: str object has no attribute values"
  | Sum.inr a => Except.ok a

/-- Dataset item access `ds[k]` where the Python key is either a string
(variable lookup) or a DataArray (as on line 190 of subcol_display.py
after `y_variable` has been rebound to a sliced array): xarray rejects a
DataArray key, which is unhashable and not a valid list of variable
names. -/
def dsGetItemKey (ds : Dataset) : String ⊕ DataArray → Except String DataArray
  | Sum.inl s => dsGetItem ds s
  | Sum.inr _ => Except.error "TypeError: unhashable type: DataArray"

/-- Stand-in for `np.datetime_as_string` applied to the first model time:
renders the (rational) time value as a string.  It only feeds the default
plot title, whose exact text no claim inspects. -/
def np_datetime_as_string (q : ℚ) : String :=
  toString q.num ++ "/" ++ toString q.den

/-- The state of one matplotlib axes object (a subplot): title, axis
labels, y-orientation and the artists drawn on it so far (`pcolormesh`
payloads, `fill_betweenx` payloads, line plots, colorbar labels).
matplotlib `invert_yaxis` flips the current orientation, so it toggles
`yInverted`. -/
structure AxesState where
  title : Option String := none
  xlabel : Option String := none
  ylabel : Option String := none
  yInverted : Bool := false
  meshes : List ((List Nat × List ℚ) × (List Nat × List ℚ) × (List Nat × List ℚ)) := []
  fills : List (List ℚ × List (Option ℚ) × List (Option ℚ)) := []
  linePlots : List (List (Option ℚ) × List ℚ) := []
  cbarLabels : List String := []
deriving DecidableEq, Repr, Inhabited

/-- A matplotlib axes handle `self.axes[i]`, identified by its subplot
index; this is what the plotting methods return. -/
structure AxesHandle where
  index : Nat
deriving DecidableEq, Repr, Inhabited

/-- A `SubcolumnDisplay` object: the ACT `Display` mapping `_arm` from
dataset name to dataset, the `model` attribute, and the `axes` array of
subplots. -/
structure SubDisplay where
  arm : List (String × Dataset) := []
  model : PyModel := {}
  axes : List AxesState := []
deriving DecidableEq, Repr, Inhabited

/-- Apply an update to the axes object at subplot index `i`. -/
def updAxes (d : SubDisplay) (i : Nat) (f : AxesState → AxesState) : SubDisplay :=
  { d with axes := d.axes.set i (f (d.axes.getD i {})) }

/-- Constructor `SubcolumnDisplay.__init__(model, **kwargs)`: when `ds_name` is not
among the keyword arguments it is read from `model.model_name`
(subcol_display.py lines 41-42) before `super().__init__(model.ds,
ds_name=ds_name)` runs; no class in `model.py` assigns `model_name`, so
that read raises `AttributeError`.  The ACT `Display` base constructor is
modelled as storing the dataset under the name in `_arm`, with no
subplots created yet. -/
def SubcolumnDisplay_init (model : PyModel) (ds_name_kwarg : Option String) :
    Except String SubDisplay :=
  let mk : String → Except String SubDisplay := fun n =>
    match model.ds with
    | some dsv => Except.ok { arm := [(n, dsv)], model := model, axes := [] }
    | none => Except.error "ValueError: Display object initialized with no dataset"
  match ds_name_kwarg with
  | none =>
      match model.model_name with
      | none => Except.error "AttributeError: Model object has no attribute model_name"
      | some n => mk n
  | some n => mk n

/-- Method `SubcolumnDisplay.plot_subcolumn_timeseries(variable, column_no,
pressure_coords, title, subplot_index)` (subcol_display.py lines 48-112);
the Python parameter `variable` is called `varName` here (`variable` is a
Lean keyword).
The display state is threaded explicitly: the first component of the
result is the display state at the moment the method returns or the
exception propagates (the `pcolormesh` on line 99 has already mutated the
axes when the default-title path fails on line 101), the second component
the returned axes handle or the exception. -/
def plot_subcolumn_timeseries (d : SubDisplay) (varName : String) (column_no : ℚ)
    (pressure_coords : Bool) (title : Option String) (subplot_index : Nat) :
    SubDisplay × Except String AxesHandle :=
  let phaseA :
      Except String
        ((List Nat × List ℚ) × (List Nat × List ℚ) × (List Nat × List ℚ) × String × String) := do
    let dsn ← match d.arm.head? with
      | some nv => Except.ok nv
      | none => Except.error "IndexError: list index out of range"
    let my_ds ← datasetSelScalar dsn.2 "subcolumn" column_no
    let x_variable := d.model.time_dim
    let y_variable := if pressure_coords then d.model.height_dim else d.model.z_field
    let yv ← dsGetItem my_ds y_variable
    let y_label :=
      if (yv.attrs.lookup "long_name").isSome && (yv.attrs.lookup "units").isSome then
        ((yv.attrs.lookup "long_name").getD "") ++ " [" ++
          ((yv.attrs.lookup "units").getD "") ++ "]"
      else y_variable
    let vv ← dsGetItem my_ds varName
    let cbar_label ← match vv.attrs.lookup "long_name", vv.attrs.lookup "units" with
      | some ln, some un => Except.ok (ln ++ " [" ++ un ++ "]")
      | none, _ => Except.error "KeyError: long_name"
      | some _, none => Except.error "KeyError: units"
    let tv ← dsGetItem my_ds x_variable
    if pressure_coords then
      let xy := np_meshgrid tv.data yv.data
      Except.ok (xy.1, xy.2, npT vv.shape vv.data, y_label, cbar_label)
    else
      let pv ← dsGetItem my_ds d.model.height_dim
      let xp := np_meshgrid tv.data pv.data
      Except.ok (xp.1, npT yv.shape yv.data, npT vv.shape vv.data, y_label, cbar_label)
  match phaseA with
  | Except.error e => (d, Except.error e)
  | Except.ok (x2, y2, c2, y_label, cbar_label) =>
    if subplot_index < d.axes.length then
      let d1 := updAxes d subplot_index (fun a => { a with meshes := a.meshes ++ [(x2, y2, c2)] })
      let titleStep : Except String String :=
        match title with
        | some t => Except.ok t
        | none =>
          match d.model.model_name with
          | none => Except.error "AttributeError: Model object has no attribute model_name"
          | some nm =>
            match d.model.ds with
            | none => Except.error "AttributeError: NoneType object has no attribute time"
            | some mds =>
              match mds.vars.lookup "time" with
              | none => Except.error "AttributeError: Dataset object has no attribute time"
              | some tvar =>
                match tvar.data.head? with
                | none => Except.error "IndexError: index 0 is out of bounds"
                | some t0 => Except.ok (nm ++ " " ++ np_datetime_as_string t0)
      match titleStep with
      | Except.error e => (d1, Except.error e)
      | Except.ok ttl =>
        let d2 := updAxes d1 subplot_index (fun a =>
          let a1 := { a with title := some ttl }
          let a2 := if pressure_coords then { a1 with yInverted := !a1.yInverted } else a1
          { a2 with
            xlabel := some "Time [UTC]"
            ylabel := some y_label
            cbarLabels := a2.cbarLabels ++ [cbar_label] })
        (d2, Except.ok { index := subplot_index })
    else (d, Except.error "IndexError: tuple index out of range")

/-- One row of the `my_histogram` array built by
`plot_vertical_frequency_dist`: the lower-percentile, median and
upper-percentile of the values selected for one height bin. -/
abbrev HistRow := Option ℚ × Option ℚ × Option ℚ

/-- The values of the 3-d `(subcolumn, time, height)` array `v` at the
height positions whose coordinate (from the list `heights`) lies in the
half-open band `[lo, hi)`: the combination
`np.logical_and(heights >= lo, heights < hi)` followed by
`values[:, :, height_inds]` from subcol_display.py lines 170-171. -/
def heightBandValues (v : DataArray) (heights : List ℚ) (lo hi : ℚ) :
    Except String (List ℚ) :=
  maskLastAxis3 v.shape v.data
    (heights.map (fun h => decide (lo ≤ h) && decide (h < hi)))

/-- The histogram loop of `plot_vertical_frequency_dist` (subcol_display.py
lines 168-174) in the `pressure_coords=True` branch: one row per pair of
adjacent bin edges, holding the `p0`-th, 50th and `p1`-th percentiles of
the variable's values at heights within `[bins[i], bins[i+1])`.  The
height coordinate `self.model.ds[self.model.height_dim]` is looked up on
each iteration, as in the source. -/
def histRows (mds : Dataset) (hd : String) (my_ds : DataArray)
    (bins : List ℚ) (p0 p1 : ℚ) : Except String (List HistRow) :=
  (List.range (bins.length - 1)).mapM (fun i => do
    let hv ← dsGetItem mds hd
    let sel ← heightBandValues my_ds hv.data (bins.getD i 0) (bins.getD (i + 1) 0)
    let c0 ← np_nanpercentile sel p0
    let c1 ← np_nanpercentile sel 50
    let c2 ← np_nanpercentile sel p1
    Except.ok (c0, c1, c2))

/-- The histogram loop in the `pressure_coords=False` branch
(subcol_display.py lines 175-179): `y_variable.values` raises while
`y_variable` is still a plain string; with an array it masks axis 1 of
the values (numpy `[:, height_inds]`). -/
def histRowsZ (y_var : String ⊕ DataArray) (my_ds : DataArray)
    (bins : List ℚ) (p0 p1 : ℚ) : Except String (List HistRow) :=
  (List.range (bins.length - 1)).mapM (fun i => do
    let ya ← strOrArrValues y_var
    let mask := ya.data.map (fun h =>
      decide (bins.getD i 0 ≤ h) && decide (h < bins.getD (i + 1) 0))
    let sel ← maskAxis1 my_ds.shape my_ds.data mask
    let c0 ← np_nanpercentile sel p0
    let c1 ← np_nanpercentile sel 50
    let c2 ← np_nanpercentile sel p1
    Except.ok (c0, c1, c2))

/-- Method `SubcolumnDisplay.plot_vertical_frequency_dist(variable, time,
pressure_coords, title, subplot_index, percentile_boundaries, bins)`
(subcol_display.py lines 115-204); the Python parameter `variable` is
called `varName` here.  The display state is threaded as in
`plot_subcolumn_timeseries`: the `fill_betweenx` and `plot` calls of
lines 182-183 have already mutated the axes when the label lookup of line
190 fails. -/
def plot_vertical_frequency_dist (d : SubDisplay) (varName : String)
    (time : Option (ℚ × ℚ)) (pressure_coords : Bool) (title : Option String)
    (subplot_index : Nat) (percentile_boundaries : ℚ × ℚ) (bins0 : Option (List ℚ)) :
    SubDisplay × Except String (List ℚ × List HistRow × AxesHandle) :=
  let phaseA :
      Except String
        (String × Dataset × List ℚ × List HistRow × (String ⊕ DataArray) × DataArray) := do
    let dsn ← match d.arm.head? with
      | some nv => Except.ok nv.1
      | none => Except.error "IndexError: list index out of range"
    let y_variable : String ⊕ DataArray :=
      Sum.inl (if pressure_coords then d.model.height_dim else d.model.z_field)
    let mds ← match d.model.ds with
      | some x => Except.ok x
      | none => Except.error "TypeError: NoneType object is not subscriptable"
    let bins ← match bins0 with
      | some b => Except.ok b
      | none => do
        let yv ← dsGetItemKey mds y_variable
        match yv.data with
        | [] => Except.error "ValueError: zero-size array to reduction operation"
        | _ :: _ => Except.ok (np_linspace (listMinD yv.data 0) (listMaxD yv.data 0) 50)
    let mdPair ← match time with
      | none => do
          let v ← dsGetItem mds varName
          Except.ok (v, y_variable)
      | some tt => do
          let v0 ← dsGetItem mds varName
          let v ← daSelTimeSliceInDs mds v0 "time" tt.1 tt.2
          if pressure_coords then
            Except.ok (v, y_variable)
          else do
            let ya ← dsGetItemKey mds y_variable
            let ys ← daSelTimeSliceInDs mds ya "time" tt.1 tt.2
            Except.ok (v, Sum.inr ys)
    let my_ds := mdPair.1
    let y_var2 := mdPair.2
    let rows ←
      if pressure_coords then
        histRows mds d.model.height_dim my_ds bins
          percentile_boundaries.1 percentile_boundaries.2
      else
        histRowsZ y_var2 my_ds bins
          percentile_boundaries.1 percentile_boundaries.2
    Except.ok (dsn, mds, bins, rows, y_var2, my_ds)
  match phaseA with
  | Except.error e => (d, Except.error e)
  | Except.ok (dsn, mds, bins, rows, y_var2, my_ds) =>
    if subplot_index < d.axes.length then
      let bin_mids := List.zipWith (fun a b => (a + b) / 2) bins.dropLast bins.tail
      let d1 := updAxes d subplot_index (fun a =>
        { a with
          fills := a.fills ++ [(bin_mids, rows.map (fun r => r.1), rows.map (fun r => r.2.2))]
          linePlots := a.linePlots ++ [(rows.map (fun r => r.2.1), bin_mids)] })
      let x_label :=
        if (my_ds.attrs.lookup "long_name").isSome && (my_ds.attrs.lookup "units").isSome then
          ((my_ds.attrs.lookup "long_name").getD "") ++ " [" ++
            ((my_ds.attrs.lookup "units").getD "") ++ "]"
        else varName
      match dsGetItemKey mds y_var2 with
      | Except.error e => (d1, Except.error e)
      | Except.ok yv190 =>
        let y_label :=
          if (yv190.attrs.lookup "long_name").isSome && (yv190.attrs.lookup "units").isSome then
            ((yv190.attrs.lookup "long_name").getD "") ++ " [" ++
              ((yv190.attrs.lookup "units").getD "") ++ "]"
          else (match y_var2 with | Sum.inl s => s | Sum.inr _ => "")
        let d2 := updAxes d1 subplot_index (fun a =>
          let a1 := if pressure_coords then { a with yInverted := !a.yInverted } else a
          { a1 with
            ylabel := some y_label
            xlabel := some x_label
            title := some (match title with | some t => t | none => dsn ++ " " ++ varName) })
        (d2, Except.ok (bins, rows, { index := subplot_index }))
    else (d, Except.error "IndexError: tuple index out of range")

/-- A minimal well-formed single-column dataset: the `lat` and `lon`
dimensions both have size 1. -/
def scmDemoDs : Dataset := { vars :=
  [("t", { dims := ["lat", "lon", "time"], shape := [1, 1, 2], data := [10, 20] }),
   ("time", { dims := ["time"], shape := [2], data := [0, 1] })] }

/-- A dataset whose `lat` dimension has size 2: not a single-column run. -/
def multiColDs : Dataset := { vars :=
  [("t", { dims := ["lat", "lon"], shape := [2, 1], data := [1, 2] })] }

/-- A dataset with a `subcolumn` dimension of size 2. -/
def subDemoDs : Dataset := { vars :=
  [("sub_col_Ze", { dims := ["subcolumn", "time"], shape := [2, 2], data := [1, 2, 3, 4] })] }

/-- A model whose `ds` is `subDemoDs`. -/
def subDemoModel : PyModel := { ds := some subDemoDs }

/-- A model record with the four standard hydrometeor classes in
`N_field` (only the fields inspected by a witness are populated). -/
def fourClassModel : PyModel :=
  { N_field := [("cl", "ncl"), ("ci", "nci"), ("pl", "npl"), ("pi", "npi")] }

/-- A small subcolumn dataset for exercising `plot_subcolumn_timeseries`:
two subcolumns, two times, two heights. -/
def wDs : Dataset := { vars :=
  [("subcolumn", { dims := ["subcolumn"], shape := [2], data := [0, 1] }),
   ("v", { dims := ["subcolumn", "time", "hgt"], shape := [2, 2, 2],
           data := [1, 2, 3, 4, 5, 6, 7, 8],
           attrs := [("long_name", "Reflectivity"), ("units", "dBZ")] }),
   ("time", { dims := ["time"], shape := [2], data := [0, 1] }),
   ("hgt", { dims := ["hgt"], shape := [2], data := [100, 200] })] }

/-- A model for `wDs` (its own `ds` only carries the time coordinate the
default-title path would read). -/
def wModel : PyModel := {
  time_dim := "time"
  height_dim := "hgt"
  z_field := "zf"
  ds := some { vars := [("time", { dims := ["time"], shape := [2], data := [0, 1] })] } }

/-- A display over `wDs` with one fresh subplot. -/
def wDisp : SubDisplay := { arm := [("w", wDs)], model := wModel, axes := [{}] }

/-- The dataset `wDs` after `.sel(subcolumn=1)`. -/
def wSel : Dataset := (datasetSelScalar wDs "subcolumn" 1).toOption.getD {}

/-- The height variable of `wSel`. -/
def wYda : DataArray := (dsGetItem wSel "hgt").toOption.getD {}

/-- The plotted variable of `wSel`. -/
def wVda : DataArray := (dsGetItem wSel "v").toOption.getD {}

/-- The time variable of `wSel`. -/
def wTda : DataArray := (dsGetItem wSel "time").toOption.getD {}

/-- A dataset for exercising `plot_vertical_frequency_dist`: a 3-d
`(subcolumn, time, hgt)` variable, height coordinate `[0, 49, 98]` and a
1-d height field `zf`. -/
def vDs : Dataset := { vars :=
  [("subcolumn", { dims := ["subcolumn"], shape := [2], data := [0, 1] }),
   ("v", { dims := ["subcolumn", "time", "hgt"], shape := [2, 2, 3],
           data := [1, 2, 3, 4, 5, 6, 7, 8, 9, 10, 11, 12],
           attrs := [("long_name", "Reflectivity"), ("units", "dBZ")] }),
   ("time", { dims := ["time"], shape := [2], data := [0, 1] }),
   ("hgt", { dims := ["hgt"], shape := [3], data := [0, 49, 98] }),
   ("zf", { dims := ["hgt"], shape := [3], data := [10, 15, 20] })] }

/-- A model whose dataset is `vDs`. -/
def vModel : PyModel := {
  time_dim := "time"
  height_dim := "hgt"
  z_field := "zf"
  ds := some vDs }

/-- A display over `vDs` with one fresh subplot. -/
def vDisp : SubDisplay := { arm := [("w", vDs)], model := vModel, axes := [{}] }

/-- The 3-d variable of `vDs`. -/
def vVda : DataArray := (dsGetItem vDs "v").toOption.getD {}

/-- The height coordinate of `vDs`. -/
def vHgt : DataArray := (dsGetItem vDs "hgt").toOption.getD {}

/-- The model object built by `TestAllStratiform.__init__`. -/
def testAllStratiformModel : PyModel := TestAllStratiform_init.toOption.getD {}

/-- The six per-hydrometeor dictionaries of a model all have exactly the
four hydrometeor-class keys cl, ci, pl, pi. -/
def sixHydDictsKeyed (m : PyModel) : Prop :=
  dictKeys m.Rho_hyd = ["cl", "ci", "pl", "pi"] ∧
  dictKeys m.lidar_ratio_q = ["cl", "ci", "pl", "pi"] ∧
  dictKeys m.LDR_per_hyd = ["cl", "ci", "pl", "pi"] ∧
  dictKeys m.vel_param_a = ["cl", "ci", "pl", "pi"] ∧
  dictKeys m.vel_param_b = ["cl", "ci", "pl", "pi"] ∧
  dictKeys m.N_field = ["cl", "ci", "pl", "pi"]

/-- The value of a successful `Except` computation (`d` on error). -/
def exceptGetD {ε α : Type} (e : Except ε α) (dflt : α) : α :=
  match e with
  | Except.ok a => a
  | Except.error _ => dflt

/-- Key membership (`k in d.keys()`) agrees with association lookup
succeeding. -/
theorem any_key_eq_lookup_isSome {β : Type} (k : String) :
    ∀ l : List (String × β), l.any (fun p => p.1 == k) = (l.lookup k).isSome := by
  intro l
  induction l with
  | nil => rfl
  | cons x xs ih =>
      cases x with
      | mk a b =>
          by_cases hak : a = k
          · subst hak
            simp [List.lookup]
          · have h1 : (a == k) = false := beq_eq_false_iff_ne.mpr hak
            have h2 : (k == a) = false := beq_eq_false_iff_ne.mpr (Ne.symm hak)
            simp [List.lookup, h1, h2, ih]

/-- C8: for every model, `hydrometeor_classes` is the key list of
`N_field`, `num_hydrometeor_classes` is its length, and in particular a
model whose `N_field` has the four entries cl, ci, pl, pi has exactly 4
hydrometeor classes. -/
theorem hydrometeor_class_props (m : PyModel) :
    Model_hydrometeor_classes m = dictKeys m.N_field ∧
    Model_num_hydrometeor_classes m = (Model_hydrometeor_classes m).length ∧
    (dictKeys m.N_field = ["cl", "ci", "pl", "pi"] →
      Model_num_hydrometeor_classes m = 4) := by
  refine ⟨rfl, rfl, ?_⟩
  intro h
  unfold Model_num_hydrometeor_classes
  rw [h]
  rfl

/-- C8 witness: a model with the four standard entries in `N_field` has 4
hydrometeor classes. -/
theorem hydrometeor_class_props_witness :
    Model_num_hydrometeor_classes fourClassModel = 4 :=
  (hydrometeor_class_props fourClassModel).2.2 rfl

/-- C9: for every model whose `ds` attribute is a dataset,
`num_subcolumns` is the size of the `subcolumn` dimension when it exists
in the dataset and 0 otherwise. -/
theorem num_subcolumns_spec (m : PyModel) (dsv : Dataset) (h : m.ds = some dsv) :
    Model_num_subcolumns m =
      Except.ok (((datasetDims dsv).lookup "subcolumn").getD 0) := by
  unfold Model_num_subcolumns
  rw [h]
  dsimp only
  rw [any_key_eq_lookup_isSome "subcolumn" (datasetDims dsv)]
  cases hl : (datasetDims dsv).lookup "subcolumn" with
  | none => simp [hl]
  | some n => simp [hl, dimSize]

/-- C9 witness: on a model holding a dataset with a `subcolumn` dimension
of size 2, `num_subcolumns` is 2. -/
theorem num_subcolumns_spec_witness :
    Model_num_subcolumns subDemoModel = Except.ok 2 :=
  num_subcolumns_spec subDemoModel subDemoDs rfl

/-- C2 (the failing constructor): `TestConvection()` does not complete;
the read of `temp` on line 182 of model.py raises UnboundLocalError
before any attribute assignment runs. -/
theorem testConvection_init_raises :
    TestConvection_init =
      Except.error
        "UnboundLocalError: local variable temp referenced before assignment" := rfl

/-- C6: `SubcolumnDisplay(model)` without a `ds_name` keyword raises
AttributeError, because `Model` never assigns `model_name`; shown on the
model that `TestAllStratiform.__init__` actually builds. -/
theorem subcolumnDisplay_init_no_model_name :
    TestAllStratiform_init = Except.ok testAllStratiformModel ∧
    SubcolumnDisplay_init testAllStratiformModel none =
      Except.error "AttributeError: Model object has no attribute model_name" :=
  ⟨rfl, rfl⟩

/-- C1: for every file path whose opened dataset has a `lat` dimension of
size `la` and a `lon` dimension of size `lo`, `ModelE.__init__` raises
the RuntimeError when `la ≠ 1` or `lo ≠ 1` and the dataset has been
closed when the error propagates; when both sizes are 1 the constructor
raises no error (and never closes the dataset). -/
theorem modelE_scm_check (fp : String) (ds : Dataset) (la lo : Nat)
    (hla : dimSize ds "lat" = some la) (hlo : dimSize ds "lon" = some lo) :
    ((la ≠ 1 ∨ lo ≠ 1) →
      (ModelE_init fp ds).result =
        Except.error
          ("RuntimeError: " ++ fp ++
            " is not an SCM run. EMC^2 will only work with SCM runs.") ∧
      (ModelE_init fp ds).dsClosed = true) ∧
    (la = 1 → lo = 1 →
      (∃ m, (ModelE_init fp ds).result = Except.ok m) ∧
      (ModelE_init fp ds).dsClosed = false) := by
  constructor
  · intro hne
    unfold ModelE_init
    rw [hla]
    dsimp only
    by_cases h1 : la = 1
    · subst h1
      rw [hlo]
      dsimp only
      rcases hne with hne | hne
      · exact absurd rfl hne
      · simp [hne]
    · simp [h1]
  · intro h1 h2
    subst h1
    subst h2
    unfold ModelE_init
    rw [hla, hlo]
    dsimp only
    simp

/-- C1 witness: on a dataset whose `lat` dimension has size 2,
`ModelE.__init__` raises the RuntimeError and has closed the dataset. -/
theorem modelE_scm_check_witness :
    (ModelE_init "g.nc" multiColDs).result =
      Except.error
        ("RuntimeError: " ++ "g.nc" ++
          " is not an SCM run. EMC^2 will only work with SCM runs.") ∧
    (ModelE_init "g.nc" multiColDs).dsClosed = true :=
  (modelE_scm_check "g.nc" multiColDs 2 1 rfl rfl).1 (Or.inl (by decide))

/-- C3: when `ModelE.__init__` succeeds (both `lat` and `lon` have
size 1) the resulting model's `ds` is the opened dataset with the `lat`
and `lon` dimensions squeezed away, and the field-name attributes hold
the ModelE schema. -/
theorem modelE_ok_schema (fp : String) (ds : Dataset)
    (hla : dimSize ds "lat" = some 1) (hlo : dimSize ds "lon" = some 1) :
    ∃ m, (ModelE_init fp ds).result = Except.ok m ∧
      m.ds = some (datasetSqueeze ds ["lat", "lon"]) ∧
      m.T_field = "t" ∧ m.q_field = "q" ∧ m.p_field = "p_3d" ∧
      m.z_field = "z" ∧ m.height_dim = "plm" ∧ m.time_dim = "time" := by
  unfold ModelE_init
  rw [hla, hlo]
  dsimp only
  simp only [ne_eq, not_true_eq_false, if_false, ite_false]
  exact ⟨_, rfl, rfl, rfl, rfl, rfl, rfl, rfl, rfl⟩

/-- C3 witness: on a concrete single-column dataset the constructed model
carries the squeezed dataset and the ModelE field schema. -/
theorem modelE_ok_schema_witness :
    ∃ m, (ModelE_init "f.nc" scmDemoDs).result = Except.ok m ∧
      m.ds = some (datasetSqueeze scmDemoDs ["lat", "lon"]) ∧
      m.T_field = "t" ∧ m.q_field = "q" ∧ m.p_field = "p_3d" ∧
      m.z_field = "z" ∧ m.height_dim = "plm" ∧ m.time_dim = "time" :=
  modelE_ok_schema "f.nc" scmDemoDs rfl rfl

/-- C7 (counterexample): it is not the case that every concrete model
constructor sets the hydrometeor dictionaries - `TestConvection.__init__`
raises before reaching any of its assignments, so no constructed object
exists. -/
theorem testConvection_sets_no_dicts : ¬ ∃ m, TestConvection_init = Except.ok m := by
  rintro ⟨m, h⟩
  have h2 :
      (Except.error
          "UnboundLocalError: local variable temp referenced before assignment" :
        Except String PyModel) = Except.ok m := h
  exact Except.noConfusion h2

/-- C7 (amended): every concrete model constructor that completes -
`ModelE` on a single-column file, `TestModel`, `TestAllStratiform` and
`TestHalfAndHalf`; `TestConvection` raises before its assignments run -
sets `Rho_hyd`, `lidar_ratio`, `LDR_per_hyd`, `vel_param_a`,
`vel_param_b` and `N_field` over exactly the four hydrometeor-class keys
cl, ci, pl, pi. -/
theorem hydrometeor_dict_keys (fp : String) (ds : Dataset)
    (hla : dimSize ds "lat" = some 1) (hlo : dimSize ds "lon" = some 1) :
    (∃ m, (ModelE_init fp ds).result = Except.ok m ∧ sixHydDictsKeyed m) ∧
    (∃ m, TestModel_init = Except.ok m ∧ sixHydDictsKeyed m) ∧
    (∃ m, TestAllStratiform_init = Except.ok m ∧ sixHydDictsKeyed m) ∧
    (∃ m, TestHalfAndHalf_init = Except.ok m ∧ sixHydDictsKeyed m) := by
  refine ⟨?_, ⟨_, rfl, rfl, rfl, rfl, rfl, rfl, rfl⟩,
    ⟨_, rfl, rfl, rfl, rfl, rfl, rfl, rfl⟩, ⟨_, rfl, rfl, rfl, rfl, rfl, rfl, rfl⟩⟩
  unfold ModelE_init
  rw [hla, hlo]
  dsimp only
  simp only [ne_eq, not_true_eq_false, if_false, ite_false]
  exact ⟨_, rfl, rfl, rfl, rfl, rfl, rfl, rfl⟩

/-- C7 witness: the amended statement at a concrete single-column
dataset. -/
theorem hydrometeor_dict_keys_witness :
    (∃ m, (ModelE_init "f.nc" scmDemoDs).result = Except.ok m ∧ sixHydDictsKeyed m) ∧
    (∃ m, TestModel_init = Except.ok m ∧ sixHydDictsKeyed m) ∧
    (∃ m, TestAllStratiform_init = Except.ok m ∧ sixHydDictsKeyed m) ∧
    (∃ m, TestHalfAndHalf_init = Except.ok m ∧ sixHydDictsKeyed m) :=
  hydrometeor_dict_keys "f.nc" scmDemoDs rfl rfl

/-- C10: neither plotting method modifies the model: for every display
state and arguments, the `model` attribute of the display - hence the
model's dataset and every field-name attribute - is the same after the
call as before it, whether the method returns or raises. -/
theorem plotting_preserves_model (d : SubDisplay) (vn : String) (c : ℚ)
    (pc : Bool) (ti : Option String) (si : Nat) (tm : Option (ℚ × ℚ))
    (pb : ℚ × ℚ) (bs : Option (List ℚ)) :
    (plot_subcolumn_timeseries d vn c pc ti si).1.model = d.model ∧
    (plot_vertical_frequency_dist d vn tm pc ti si pb bs).1.model = d.model := by
  constructor
  · unfold plot_subcolumn_timeseries
    dsimp only
    repeat' split
    all_goals rfl
  · unfold plot_vertical_frequency_dist
    dsimp only
    repeat' split
    all_goals rfl

/-- Bind of a successful `Except` computation steps to the continuation. -/
theorem except_bind_ok {ε α β : Type} (a : α) (f : α → Except ε β) :
    (Except.ok a : Except ε α) >>= f = f a := rfl

/-- In the `Except` monad, `pure` is `Except.ok`. -/
theorem except_pure_def {ε α : Type} (a : α) : (pure a : Except ε α) = Except.ok a := rfl

/-- Reading with `getD` after `set` at the same in-range index yields the new value. -/
theorem getD_set_self {α : Type} (l : List α) (i : Nat) (a dflt : α)
    (h : i < l.length) : (l.set i a).getD i dflt = a := by
  simp [List.getD, List.getElem?_set_eq_of_lt, h]

/-- Reading with `getD` through `map` over `range`. -/
theorem getD_range_map {β : Type} (f : Nat → β) (n i : Nat) (d : β) (h : i < n) :
    ((List.range n).map f).getD i d = f i := by
  simp [List.getD, List.getElem?_map, List.getElem?_range, h]

/-- Updating a subplot keeps the number of subplots. -/
theorem updAxes_length (d : SubDisplay) (i : Nat) (f : AxesState → AxesState) :
    (updAxes d i f).axes.length = d.axes.length := by
  simp [updAxes]

/-- Reading back the subplot updated by `updAxes`. -/
theorem updAxes_getD (d : SubDisplay) (i : Nat) (f : AxesState → AxesState)
    (h : i < d.axes.length) :
    (updAxes d i f).axes.getD i {} = f (d.axes.getD i {}) :=
  getD_set_self _ _ _ _ h

/-- C5 (counterexample): a call with title=None does not return the axes
handle: after the pcolormesh is drawn it raises AttributeError reading
`model.model_name` (never assigned by any Model class), so the claim as
stated fails for such calls. -/
theorem plot_subcolumn_timeseries_title_none_raises :
    (plot_subcolumn_timeseries wDisp "v" 1 true none 0).2 =
      Except.error "AttributeError: Model object has no attribute model_name" := rfl

/-- C5 (amended): provided a title is supplied (calls with title=None
fail reading `model.model_name` before returning), on a well-formed
subcolumn dataset `plot_subcolumn_timeseries` draws a pcolormesh whose
color data are the variable's values restricted to subcolumn `c`
(transposed), with the model's `time_dim` values as the x coordinate;
with pressure coordinates the y data come from the model's `height_dim`
and the y axis of a fresh subplot ends up inverted, otherwise the y data
are the model's `z_field` values; and the method returns the axes handle
of the subplot it drew into. -/
theorem plot_subcolumn_timeseries_spec
    (d : SubDisplay) (vn : String) (c : ℚ) (pc : Bool) (t : String) (si : Nat)
    (nm : String) (ads : Dataset) (rest : List (String × Dataset))
    (harm : d.arm = (nm, ads) :: rest)
    (sds : Dataset) (hsel : datasetSelScalar ads "subcolumn" c = Except.ok sds)
    (yda : DataArray)
    (hy : dsGetItem sds (if pc then d.model.height_dim else d.model.z_field) = Except.ok yda)
    (vda : DataArray) (hv : dsGetItem sds vn = Except.ok vda)
    (ln un : String)
    (hln : vda.attrs.lookup "long_name" = some ln)
    (hun : vda.attrs.lookup "units" = some un)
    (tda : DataArray) (ht : dsGetItem sds d.model.time_dim = Except.ok tda)
    (hda : DataArray) (hh : dsGetItem sds d.model.height_dim = Except.ok hda)
    (hsi : si < d.axes.length)
    (hfresh : (d.axes.getD si {}).yInverted = false) :
    (plot_subcolumn_timeseries d vn c pc (some t) si).2 = Except.ok { index := si } ∧
    ((plot_subcolumn_timeseries d vn c pc (some t) si).1.axes.getD si {}).meshes =
      (d.axes.getD si {}).meshes ++
        [if pc then
           ((np_meshgrid tda.data yda.data).1, (np_meshgrid tda.data yda.data).2,
            npT vda.shape vda.data)
         else
           ((np_meshgrid tda.data hda.data).1, npT yda.shape yda.data,
            npT vda.shape vda.data)] ∧
    ((plot_subcolumn_timeseries d vn c pc (some t) si).1.axes.getD si {}).title = some t ∧
    ((plot_subcolumn_timeseries d vn c pc (some t) si).1.axes.getD si {}).yInverted = pc := by
  cases pc with
  | true =>
      simp only [if_true] at hy
      unfold plot_subcolumn_timeseries
      simp only [harm, List.head?_cons, except_bind_ok, hsel, hy, hv, hln, hun, ht, hh,
        except_pure_def, if_true]
      rw [if_pos hsi]
      refine ⟨rfl, ?_, ?_, ?_⟩
      · rw [updAxes_getD _ _ _ (by rw [updAxes_length]; exact hsi),
          updAxes_getD _ _ _ hsi]
      · rw [updAxes_getD _ _ _ (by rw [updAxes_length]; exact hsi),
          updAxes_getD _ _ _ hsi]
      · rw [updAxes_getD _ _ _ (by rw [updAxes_length]; exact hsi),
          updAxes_getD _ _ _ hsi]
        dsimp only
        rw [hfresh]
        rfl
  | false =>
      simp only [if_false, Bool.false_eq_true] at hy
      unfold plot_subcolumn_timeseries
      simp only [harm, List.head?_cons, except_bind_ok, hsel, hy, hv, hln, hun, ht, hh,
        except_pure_def, if_false, Bool.false_eq_true]
      rw [if_pos hsi]
      refine ⟨rfl, ?_, ?_, ?_⟩
      · rw [updAxes_getD _ _ _ (by rw [updAxes_length]; exact hsi),
          updAxes_getD _ _ _ hsi]
      · rw [updAxes_getD _ _ _ (by rw [updAxes_length]; exact hsi),
          updAxes_getD _ _ _ hsi]
      · rw [updAxes_getD _ _ _ (by rw [updAxes_length]; exact hsi),
          updAxes_getD _ _ _ hsi]
        dsimp only
        exact hfresh

/-- C5 witness: the amended statement evaluated on the concrete display
`wDisp`, subcolumn 1, pressure coordinates, title "T". -/
theorem plot_subcolumn_timeseries_spec_witness :
    (plot_subcolumn_timeseries wDisp "v" 1 true (some "T") 0).2 =
      Except.ok { index := 0 } ∧
    ((plot_subcolumn_timeseries wDisp "v" 1 true (some "T") 0).1.axes.getD 0 {}).meshes =
      (wDisp.axes.getD 0 {}).meshes ++
        [((np_meshgrid wTda.data wYda.data).1, (np_meshgrid wTda.data wYda.data).2,
          npT wVda.shape wVda.data)] ∧
    ((plot_subcolumn_timeseries wDisp "v" 1 true (some "T") 0).1.axes.getD 0 {}).title =
      some "T" ∧
    ((plot_subcolumn_timeseries wDisp "v" 1 true (some "T") 0).1.axes.getD 0 {}).yInverted =
      true :=
  plot_subcolumn_timeseries_spec wDisp "v" 1 true "T" 0 "w" wDs [] rfl wSel rfl wYda rfl
    wVda rfl "Reflectivity" "dBZ" rfl rfl wTda rfl wYda rfl (by decide) rfl

/-- Length of `np_linspace`. -/
theorem np_linspace_length (s t : ℚ) (n : Nat) : (np_linspace s t n).length = n := by
  rw [np_linspace, List.length_map, List.length_range]

/-- Entries of `np_linspace`. -/
theorem np_linspace_getD (s t : ℚ) (n i : Nat) (h : i < n) :
    (np_linspace s t n).getD i 0 =
      s + (t - s) * (i : ℚ) / ((n - 1 : Nat) : ℚ) :=
  getD_range_map (fun i : Nat => s + (t - s) * (i : ℚ) / ((n - 1 : Nat) : ℚ)) n i 0 h

/-- The first sample of `np_linspace` is the start value. -/
theorem np_linspace_first (s t : ℚ) (n : Nat) (h : 0 < n) :
    (np_linspace s t n).getD 0 0 = s := by
  rw [np_linspace_getD s t n 0 h]
  simp

/-- The last sample of `np_linspace` is the stop value. -/
theorem np_linspace_last (s t : ℚ) (k : Nat) :
    (np_linspace s t (k + 2)).getD (k + 1) 0 = t := by
  rw [np_linspace_getD s t (k + 2) (k + 1) (by omega)]
  have h2 : ((k + 2 - 1 : Nat) : ℚ) = ((k + 1 : Nat) : ℚ) := by norm_num
  rw [h2]
  have hk : ((k + 1 : Nat) : ℚ) ≠ 0 := by exact_mod_cast Nat.succ_ne_zero k
  field_simp

/-- Consecutive `np_linspace` samples differ by the constant step
`(stop - start) / (num - 1)`: the samples are evenly spaced. -/
theorem np_linspace_step (s t : ℚ) (k i : Nat) (h : i + 1 < k + 2) :
    (np_linspace s t (k + 2)).getD (i + 1) 0 - (np_linspace s t (k + 2)).getD i 0 =
      (t - s) / ((k + 1 : Nat) : ℚ) := by
  rw [np_linspace_getD s t (k + 2) (i + 1) h, np_linspace_getD s t (k + 2) i (by omega)]
  have h2 : ((k + 2 - 1 : Nat) : ℚ) = ((k + 1 : Nat) : ℚ) := by norm_num
  rw [h2]
  have hk : ((k + 1 : Nat) : ℚ) ≠ 0 := by exact_mod_cast Nat.succ_ne_zero k
  field_simp
  ring

/-- Monadic `mapM` over `Except` when every element succeeds with a describable
value. -/
theorem exceptMapM_ok {α β : Type} (f : α → Except String β) (g : α → β) :
    ∀ l : List α, (∀ x ∈ l, f x = Except.ok (g x)) →
      l.mapM f = Except.ok (l.map g) := by
  intro l
  induction l with
  | nil => intro _; rfl
  | cons x xs ih =>
      intro h
      rw [List.mapM_cons, h x (List.mem_cons_self x xs),
        ih (fun y hy => h y (List.mem_cons_of_mem x hy))]
      rfl

/-- C4 (counterexample): with height coordinates
(`pressure_coords=False`), the local `y_variable` of
`plot_vertical_frequency_dist` is still a plain string when the loop
reads `y_variable.values` (line 176), so a bins=None call raises
AttributeError instead of returning bin edges, histogram and axis
handle - the claim fails as stated for such calls. -/
theorem plot_vertical_frequency_dist_zcoords_raises :
    (plot_vertical_frequency_dist vDisp "v" none false none 0 (5, 95) none).2 =
      Except.error "AttributeError: str object has no attribute values" := rfl

/-- A `nanpercentile` call with `q` in numpy's accepted range `[0, 100]`
returns its interpolated value rather than raising. -/
theorem np_nanpercentile_ok (l : List ℚ) (q : ℚ) (h0 : 0 ≤ q) (h1 : q ≤ 100) :
    np_nanpercentile l q = Except.ok (np_nanpercentileVal l q) := by
  unfold np_nanpercentile
  rw [if_neg]
  rw [not_or]
  exact ⟨not_lt.mpr h0, not_lt.mpr h1⟩

/-- The loop `histRows` succeeds when the height coordinate is present,
the variable's values form a 3-d array whose last axis has the height
coordinate's length, and both percentile boundaries lie in numpy's
accepted range `[0, 100]`; each row holds the three percentiles of the
values in the corresponding height band. -/
theorem histRows_ok (mds : Dataset) (hd : String) (my_ds : DataArray)
    (bins : List ℚ) (p0 p1 : ℚ) (yda : DataArray)
    (hy : dsGetItem mds hd = Except.ok yda)
    (sa sb : Nat) (hshape : my_ds.shape = [sa, sb, yda.data.length])
    (hp00 : 0 ≤ p0) (hp01 : p0 ≤ 100) (hp10 : 0 ≤ p1) (hp11 : p1 ≤ 100) :
    histRows mds hd my_ds bins p0 p1 =
      Except.ok ((List.range (bins.length - 1)).map (fun i =>
        (np_nanpercentileVal (exceptGetD (heightBandValues my_ds yda.data
            (bins.getD i 0) (bins.getD (i + 1) 0)) []) p0,
         np_nanpercentileVal (exceptGetD (heightBandValues my_ds yda.data
            (bins.getD i 0) (bins.getD (i + 1) 0)) []) 50,
         np_nanpercentileVal (exceptGetD (heightBandValues my_ds yda.data
            (bins.getD i 0) (bins.getD (i + 1) 0)) []) p1))) := by
  have hband : ∀ lo hi : ℚ, heightBandValues my_ds yda.data lo hi =
      Except.ok (exceptGetD (heightBandValues my_ds yda.data lo hi) []) := by
    intro lo hi
    unfold heightBandValues maskLastAxis3
    rw [hshape]
    dsimp only
    rw [List.length_map]
    simp [exceptGetD]
  unfold histRows
  apply exceptMapM_ok
  intro x hx
  rw [hy, except_bind_ok, hband (bins.getD x 0) (bins.getD (x + 1) 0), except_bind_ok]
  rw [np_nanpercentile_ok _ p0 hp00 hp01, except_bind_ok,
    np_nanpercentile_ok _ 50 (by norm_num) (by norm_num), except_bind_ok,
    np_nanpercentile_ok _ p1 hp10 hp11, except_bind_ok]
  rfl

/-- With a 3-d value array whose last axis matches the height coordinate
length, the height-band selection always succeeds. -/
theorem heightBandValues_ok (my_ds : DataArray) (hs : List ℚ) (lo hi : ℚ)
    (sa sb : Nat) (hshape : my_ds.shape = [sa, sb, hs.length]) :
    heightBandValues my_ds hs lo hi =
      Except.ok (exceptGetD (heightBandValues my_ds hs lo hi) []) := by
  unfold heightBandValues maskLastAxis3
  rw [hshape]
  dsimp only
  rw [List.length_map]
  simp [exceptGetD]

set_option maxHeartbeats 2000000 in
/-- C4 (amended): for every bins=None call with pressure coordinates
(with height coordinates the method instead raises before returning, see
the counterexample) and percentile boundaries in numpy's accepted range
[0, 100] (numpy nanpercentile raises ValueError otherwise), on a model
dataset holding the height coordinate and
a 3-d variable: the bin edges are the 50 evenly spaced values from the
minimum to the maximum of the vertical coordinate (first edge the
minimum, last the maximum, constant step (max - min)/49); the histogram
has one row per pair of adjacent edges (49 rows), whose three columns are
the percentile_boundaries[0] percentile, the 50th percentile and the
percentile_boundaries[1] percentile of the (time-selected) variable
values at vertical positions within [bins[i], bins[i+1]); and the method
returns the bin edges, the histogram and the axis handle. -/
theorem plot_vertical_frequency_dist_spec
    (d : SubDisplay) (vn : String) (tm : Option (ℚ × ℚ)) (ti : Option String)
    (si : Nat) (p0 p1 : ℚ)
    (hp00 : 0 ≤ p0) (hp01 : p0 ≤ 100) (hp10 : 0 ≤ p1) (hp11 : p1 ≤ 100)
    (nm : String) (ads : Dataset) (rest : List (String × Dataset))
    (harm : d.arm = (nm, ads) :: rest)
    (mds : Dataset) (hds : d.model.ds = some mds)
    (yda : DataArray) (hy : dsGetItem mds d.model.height_dim = Except.ok yda)
    (hne : yda.data ≠ [])
    (vda : DataArray) (hv : dsGetItem mds vn = Except.ok vda)
    (svda : DataArray)
    (hsl : (match tm with
            | none => Except.ok vda
            | some tt => daSelTimeSliceInDs mds vda "time" tt.1 tt.2) = Except.ok svda)
    (sa sb : Nat) (hshape : svda.shape = [sa, sb, yda.data.length])
    (hsi : si < d.axes.length) :
    ∃ rows : List HistRow,
      (plot_vertical_frequency_dist d vn tm true ti si (p0, p1) none).2 =
        Except.ok (np_linspace (listMinD yda.data 0) (listMaxD yda.data 0) 50,
          rows, { index := si }) ∧
      (np_linspace (listMinD yda.data 0) (listMaxD yda.data 0) 50).length = 50 ∧
      (np_linspace (listMinD yda.data 0) (listMaxD yda.data 0) 50).getD 0 0 =
        listMinD yda.data 0 ∧
      (np_linspace (listMinD yda.data 0) (listMaxD yda.data 0) 50).getD 49 0 =
        listMaxD yda.data 0 ∧
      (∀ i, i + 1 < 50 →
        (np_linspace (listMinD yda.data 0) (listMaxD yda.data 0) 50).getD (i + 1) 0 -
          (np_linspace (listMinD yda.data 0) (listMaxD yda.data 0) 50).getD i 0 =
        (listMaxD yda.data 0 - listMinD yda.data 0) / ((49 : Nat) : ℚ)) ∧
      rows.length = 49 ∧
      (∀ lo hi : ℚ, ∃ sel : List ℚ,
        heightBandValues svda yda.data lo hi = Except.ok sel) ∧
      (∀ i, i < 49 →
        rows.getD i (none, none, none) =
          (np_nanpercentileVal (exceptGetD (heightBandValues svda yda.data
              ((np_linspace (listMinD yda.data 0) (listMaxD yda.data 0) 50).getD i 0)
              ((np_linspace (listMinD yda.data 0) (listMaxD yda.data 0) 50).getD (i + 1) 0)) []) p0,
           np_nanpercentileVal (exceptGetD (heightBandValues svda yda.data
              ((np_linspace (listMinD yda.data 0) (listMaxD yda.data 0) 50).getD i 0)
              ((np_linspace (listMinD yda.data 0) (listMaxD yda.data 0) 50).getD (i + 1) 0)) []) 50,
           np_nanpercentileVal (exceptGetD (heightBandValues svda yda.data
              ((np_linspace (listMinD yda.data 0) (listMaxD yda.data 0) 50).getD i 0)
              ((np_linspace (listMinD yda.data 0) (listMaxD yda.data 0) 50).getD (i + 1) 0)) []) p1)) := by
  obtain ⟨a0, l0, hyd⟩ : ∃ a0 l0, yda.data = a0 :: l0 := by
    cases hyd : yda.data with
    | nil => exact absurd hyd hne
    | cons a l => exact ⟨a, l, rfl⟩
  have hrows := histRows_ok mds d.model.height_dim svda
    (np_linspace (listMinD yda.data 0) (listMaxD yda.data 0) 50) p0 p1 yda hy sa sb hshape
    hp00 hp01 hp10 hp11
  have hlen : (np_linspace (listMinD yda.data 0) (listMaxD yda.data 0) 50).length = 50 :=
    np_linspace_length _ _ _
  have hside :
      (np_linspace (listMinD yda.data 0) (listMaxD yda.data 0) 50).length = 50 ∧
      (np_linspace (listMinD yda.data 0) (listMaxD yda.data 0) 50).getD 0 0 =
        listMinD yda.data 0 ∧
      (np_linspace (listMinD yda.data 0) (listMaxD yda.data 0) 50).getD 49 0 =
        listMaxD yda.data 0 ∧
      (∀ i, i + 1 < 50 →
        (np_linspace (listMinD yda.data 0) (listMaxD yda.data 0) 50).getD (i + 1) 0 -
          (np_linspace (listMinD yda.data 0) (listMaxD yda.data 0) 50).getD i 0 =
        (listMaxD yda.data 0 - listMinD yda.data 0) / ((49 : Nat) : ℚ)) ∧
      (∀ lo hi : ℚ, ∃ sel : List ℚ,
        heightBandValues svda yda.data lo hi = Except.ok sel) := by
    refine ⟨hlen, np_linspace_first _ _ 50 (by norm_num), np_linspace_last _ _ 48, ?_, ?_⟩
    · intro i h
      exact np_linspace_step _ _ 48 i h
    · intro lo hi
      exact ⟨_, heightBandValues_ok svda yda.data lo hi sa sb hshape⟩
  have hgetrow : ∀ i, i < 49 →
      (((List.range ((np_linspace (listMinD yda.data 0) (listMaxD yda.data 0) 50).length - 1)).map
        (fun i =>
          (np_nanpercentileVal (exceptGetD (heightBandValues svda yda.data
              ((np_linspace (listMinD yda.data 0) (listMaxD yda.data 0) 50).getD i 0)
              ((np_linspace (listMinD yda.data 0) (listMaxD yda.data 0) 50).getD (i + 1) 0)) []) p0,
           np_nanpercentileVal (exceptGetD (heightBandValues svda yda.data
              ((np_linspace (listMinD yda.data 0) (listMaxD yda.data 0) 50).getD i 0)
              ((np_linspace (listMinD yda.data 0) (listMaxD yda.data 0) 50).getD (i + 1) 0)) []) 50,
           np_nanpercentileVal (exceptGetD (heightBandValues svda yda.data
              ((np_linspace (listMinD yda.data 0) (listMaxD yda.data 0) 50).getD i 0)
              ((np_linspace (listMinD yda.data 0) (listMaxD yda.data 0) 50).getD (i + 1) 0)) []) p1))).getD
          i (none, none, none)) =
        (np_nanpercentileVal (exceptGetD (heightBandValues svda yda.data
            ((np_linspace (listMinD yda.data 0) (listMaxD yda.data 0) 50).getD i 0)
            ((np_linspace (listMinD yda.data 0) (listMaxD yda.data 0) 50).getD (i + 1) 0)) []) p0,
         np_nanpercentileVal (exceptGetD (heightBandValues svda yda.data
            ((np_linspace (listMinD yda.data 0) (listMaxD yda.data 0) 50).getD i 0)
            ((np_linspace (listMinD yda.data 0) (listMaxD yda.data 0) 50).getD (i + 1) 0)) []) 50,
         np_nanpercentileVal (exceptGetD (heightBandValues svda yda.data
            ((np_linspace (listMinD yda.data 0) (listMaxD yda.data 0) 50).getD i 0)
            ((np_linspace (listMinD yda.data 0) (listMaxD yda.data 0) 50).getD (i + 1) 0)) []) p1) := by
    intro i h
    rw [hlen]
    exact getD_range_map _ _ _ _ (by omega)
  have hrlen :
      ((List.range ((np_linspace (listMinD yda.data 0) (listMaxD yda.data 0) 50).length - 1)).map
        (fun i =>
          (np_nanpercentileVal (exceptGetD (heightBandValues svda yda.data
              ((np_linspace (listMinD yda.data 0) (listMaxD yda.data 0) 50).getD i 0)
              ((np_linspace (listMinD yda.data 0) (listMaxD yda.data 0) 50).getD (i + 1) 0)) []) p0,
           np_nanpercentileVal (exceptGetD (heightBandValues svda yda.data
              ((np_linspace (listMinD yda.data 0) (listMaxD yda.data 0) 50).getD i 0)
              ((np_linspace (listMinD yda.data 0) (listMaxD yda.data 0) 50).getD (i + 1) 0)) []) 50,
           np_nanpercentileVal (exceptGetD (heightBandValues svda yda.data
              ((np_linspace (listMinD yda.data 0) (listMaxD yda.data 0) 50).getD i 0)
              ((np_linspace (listMinD yda.data 0) (listMaxD yda.data 0) 50).getD (i + 1) 0)) []) p1))).length = 49 := by
    rw [List.length_map, List.length_range, hlen]
  cases tm with
  | none =>
      obtain rfl : vda = svda := by injection hsl
      refine ⟨_, ?_, hside.1, hside.2.1, hside.2.2.1, hside.2.2.2.1, hrlen, hside.2.2.2.2, hgetrow⟩
      unfold plot_vertical_frequency_dist
      simp only [harm, List.head?_cons, except_bind_ok, hds, hy, hv, except_pure_def,
        if_true, dsGetItemKey]
      rw [hyd]
      dsimp only
      rw [← hyd, hrows, except_bind_ok]
      dsimp only
      rw [if_pos hsi]
      rw [hy]
  | some tt =>
      have hslice : daSelTimeSliceInDs mds vda "time" tt.1 tt.2 = Except.ok svda := hsl
      refine ⟨_, ?_, hside.1, hside.2.1, hside.2.2.1, hside.2.2.2.1, hrlen, hside.2.2.2.2, hgetrow⟩
      unfold plot_vertical_frequency_dist
      simp only [harm, List.head?_cons, except_bind_ok, hds, hy, hv, hslice,
        except_pure_def, if_true, dsGetItemKey]
      rw [hyd]
      dsimp only
      rw [← hyd, hrows, except_bind_ok]
      dsimp only
      rw [if_pos hsi]
      rw [hy]

/-- C4 witness: the amended statement evaluated on the concrete display
`vDisp` with bins=None, pressure coordinates, default title and
percentile boundaries (5, 95). -/
theorem plot_vertical_frequency_dist_spec_witness :
    ∃ rows : List HistRow,
      (plot_vertical_frequency_dist vDisp "v" none true none 0 (5, 95) none).2 =
        Except.ok (np_linspace (listMinD vHgt.data 0) (listMaxD vHgt.data 0) 50,
          rows, { index := 0 }) ∧
      (np_linspace (listMinD vHgt.data 0) (listMaxD vHgt.data 0) 50).length = 50 ∧
      (np_linspace (listMinD vHgt.data 0) (listMaxD vHgt.data 0) 50).getD 0 0 =
        listMinD vHgt.data 0 ∧
      (np_linspace (listMinD vHgt.data 0) (listMaxD vHgt.data 0) 50).getD 49 0 =
        listMaxD vHgt.data 0 ∧
      (∀ i, i + 1 < 50 →
        (np_linspace (listMinD vHgt.data 0) (listMaxD vHgt.data 0) 50).getD (i + 1) 0 -
          (np_linspace (listMinD vHgt.data 0) (listMaxD vHgt.data 0) 50).getD i 0 =
        (listMaxD vHgt.data 0 - listMinD vHgt.data 0) / ((49 : Nat) : ℚ)) ∧
      rows.length = 49 ∧
      (∀ lo hi : ℚ, ∃ sel : List ℚ,
        heightBandValues vVda vHgt.data lo hi = Except.ok sel) ∧
      (∀ i, i < 49 →
        rows.getD i (none, none, none) =
          (np_nanpercentileVal (exceptGetD (heightBandValues vVda vHgt.data
              ((np_linspace (listMinD vHgt.data 0) (listMaxD vHgt.data 0) 50).getD i 0)
              ((np_linspace (listMinD vHgt.data 0) (listMaxD vHgt.data 0) 50).getD (i + 1) 0)) []) 5,
           np_nanpercentileVal (exceptGetD (heightBandValues vVda vHgt.data
              ((np_linspace (listMinD vHgt.data 0) (listMaxD vHgt.data 0) 50).getD i 0)
              ((np_linspace (listMinD vHgt.data 0) (listMaxD vHgt.data 0) 50).getD (i + 1) 0)) []) 50,
           np_nanpercentileVal (exceptGetD (heightBandValues vVda vHgt.data
              ((np_linspace (listMinD vHgt.data 0) (listMaxD vHgt.data 0) 50).getD i 0)
              ((np_linspace (listMinD vHgt.data 0) (listMaxD vHgt.data 0) 50).getD (i + 1) 0)) []) 95)) :=
  plot_vertical_frequency_dist_spec vDisp "v" none none 0 5 95
    (by norm_num) (by norm_num) (by norm_num) (by norm_num) "w" vDs [] rfl
    vDs rfl vHgt rfl (by decide) vVda rfl vVda rfl 2 2 rfl (by decide)
